import Mathlib

/-!
Verification of the go-ipld-prime core against its specification.

The development shallowly embeds the Go sources:
  * `src/node/gendemo/map_K2_T2.go` — the generated concrete node family
    `K2` / `T2`, their map iterators, and the `_K2__Assembler` state machine;
  * `src/traversal/selector/exploreIndex.go` — the `ExploreIndex` selector
    and its parser `ParseExploreIndex`;
  * `src/node.go` — the `Node` / iterator interface contracts (documentation
    only; the concrete behaviour lives in the two files above).

Go multi-value returns `(v, error)` are embedded as products with
`Option`-typed error slots (a `nil` error is `none`); methods that can
`panic` return a `PanicOr` value making the panic observable.  Machine
integers are embedded as `Int` (no overflow is reachable in the embedded
code paths).  Parts of the repository that the sources reference but that
are not present (the `plainString`/`plainInt` scalar nodes, `PathSegment`,
the generic node interface used by the selector parser, the well-known
selector spec keys, and the recursive `ParseSelector`) are modelled from
the specification and are marked as such.
-/

/-- ReprKind is the closed enumeration of data-model kinds
(from `ipld.ReprKind`; the spec lists null, bool, int, float, string,
bytes, link, map, list, and the code also carries an invalid zero value). -/
inductive ReprKind where
  | invalid
  | map
  | list
  | null
  | bool
  | int
  | float
  | string
  | bytes
  | link
deriving DecidableEq, Repr

/-- ReprKindSet is a set of kinds (Go `[]ipld.ReprKind`). -/
abbrev ReprKindSet := List ReprKind

def ReprKindSet_JustMap : ReprKindSet := [ReprKind.map]
def ReprKindSet_JustList : ReprKindSet := [ReprKind.list]
def ReprKindSet_JustNull : ReprKindSet := [ReprKind.null]
def ReprKindSet_JustBool : ReprKindSet := [ReprKind.bool]
def ReprKindSet_JustInt : ReprKindSet := [ReprKind.int]
def ReprKindSet_JustFloat : ReprKindSet := [ReprKind.float]
def ReprKindSet_JustString : ReprKindSet := [ReprKind.string]
def ReprKindSet_JustBytes : ReprKindSet := [ReprKind.bytes]
def ReprKindSet_JustLink : ReprKindSet := [ReprKind.link]

/-- PanicOr makes a Go `panic` observable: a computation either panics with
a message or returns a value. -/
inductive PanicOr (α : Type) where
  | panicked (msg : String)
  | ret (val : α)
deriving DecidableEq, Repr

/-- K2 is the generated struct-keyed map key type
(`type K2 struct{ u, i plainString }`); `plainString` is a basic string
node whose value is the string itself, so the fields are embedded as
`String`. -/
structure K2 where
  u : String
  i : String
deriving DecidableEq, Repr

/-- T2 is the generated struct value type
(`type T2 struct{ a, b, c, d plainInt }`); `plainInt` is a basic int node,
so the fields are embedded as `Int`. -/
structure T2 where
  a : Int
  b : Int
  c : Int
  d : Int
deriving DecidableEq, Repr

/-- DemoNode is the universe of `ipld.Node` values occurring in the
gendemo file: `plainString` and `plainInt` scalar nodes (modelled from the
spec: basic scalar nodes carrying exactly their value; their source is not
under src/), and the generated `K2` and `T2` nodes. -/
inductive DemoNode where
  | pstring (s : String)
  | pint (v : Int)
  | k2 (n : K2)
  | t2 (n : T2)
deriving DecidableEq, Repr

/-- IpldError is the error taxonomy used by the gendemo file:
`ipld.ErrWrongKind` (with TypeName, MethodName, AppropriateKind,
ActualKind), `ipld.ErrIteratorOverread`, `ipld.ErrRepeatedMapKey`
(carrying the offending key node), and plain `fmt.Errorf` errors. -/
inductive IpldError where
  | wrongKind (typeName : String) (methodName : String)
      (appropriateKind : ReprKindSet) (actualKind : ReprKind)
  | iteratorOverread
  | repeatedMapKey (key : DemoNode)
  | errorf (msg : String)
deriving DecidableEq, Repr

/-- ReprKind of K2 (`func (K2) ReprKind()` returns `ipld.ReprKind_Map`). -/
def K2.reprKind (_ : K2) : ReprKind := ReprKind.map

/-- Length of K2 (`func (K2) Length() int { return -1 }`). -/
def K2.length (_ : K2) : Int := -1

/-- AsBool on K2: `(false, ErrWrongKind{...JustBool, Map})`. -/
def K2.asBool (_ : K2) : Bool × Option IpldError :=
  (false, some (IpldError.wrongKind "K2" "AsBool" ReprKindSet_JustBool ReprKind.map))

/-- AsInt on K2: `(0, ErrWrongKind{"K2", "AsInt", ReprKindSet_JustFloat, Map})`
— note the source really sets AppropriateKind to `ReprKindSet_JustFloat`. -/
def K2.asInt (_ : K2) : Int × Option IpldError :=
  (0, some (IpldError.wrongKind "K2" "AsInt" ReprKindSet_JustFloat ReprKind.map))

/-- AsFloat on K2: `(0, ErrWrongKind{...JustFloat, Map})`. -/
def K2.asFloat (_ : K2) : Int × Option IpldError :=
  (0, some (IpldError.wrongKind "K2" "AsFloat" ReprKindSet_JustFloat ReprKind.map))

/-- AsString on K2: `("", ErrWrongKind{...JustString, Map})`. -/
def K2.asString (_ : K2) : String × Option IpldError :=
  ("", some (IpldError.wrongKind "K2" "AsString" ReprKindSet_JustString ReprKind.map))

/-- AsBytes on K2: `(nil, ErrWrongKind{...JustBytes, Map})`. -/
def K2.asBytes (_ : K2) : Option (List UInt8) × Option IpldError :=
  (none, some (IpldError.wrongKind "K2" "AsBytes" ReprKindSet_JustBytes ReprKind.map))

/-- AsLink on K2: `(nil, ErrWrongKind{...JustLink, Map})`. -/
def K2.asLink (_ : K2) : Option Unit × Option IpldError :=
  (none, some (IpldError.wrongKind "K2" "AsLink" ReprKindSet_JustLink ReprKind.map))

/-- ReprKind of T2 (`func (T2) ReprKind()` returns `ipld.ReprKind_Map`). -/
def T2.reprKind (_ : T2) : ReprKind := ReprKind.map

/-- Length of T2 (`func (T2) Length() int { return -1 }`). -/
def T2.length (_ : T2) : Int := -1

/-- AsInt on T2: `(0, ErrWrongKind{"T2", "AsInt", ReprKindSet_JustFloat, Map})`
— as for K2, the source sets AppropriateKind to `ReprKindSet_JustFloat`. -/
def T2.asInt (_ : T2) : Int × Option IpldError :=
  (0, some (IpldError.wrongKind "T2" "AsInt" ReprKindSet_JustFloat ReprKind.map))

/-- AsString on T2: `("", ErrWrongKind{...JustString, Map})`. -/
def T2.asString (_ : T2) : String × Option IpldError :=
  ("", some (IpldError.wrongKind "T2" "AsString" ReprKindSet_JustString ReprKind.map))

/-- State of a `_K2_MapIterator`: the node pointer `n` and the cursor
`idx` (a Go `int`). -/
structure K2MapIterator where
  n : K2
  idx : Int
deriving DecidableEq, Repr

/-- MapIterator on K2 returns `&_K2_MapIterator{n, 0}`. -/
def K2.mapIterator (n : K2) : K2MapIterator := ⟨n, 0⟩

/-- Result of one `_K2_MapIterator.Next` call: the `(k, v, err)` triple
(each `Node` and the error being nil-able) together with the iterator
state after the call. -/
structure K2NextResult where
  k : Option DemoNode
  v : Option DemoNode
  err : Option IpldError
  itr : K2MapIterator
deriving DecidableEq, Repr

/-- Next on a `_K2_MapIterator`: overread guard at `idx >= 2`, then a
switch over `idx` yielding `("u", &n.u)` at 0 and `("i", &n.i)` at 1,
then `idx++`; the switch default panics "unreachable". -/
def K2MapIterator.next (itr : K2MapIterator) : PanicOr K2NextResult :=
  if 2 ≤ itr.idx then
    PanicOr.ret ⟨none, none, some IpldError.iteratorOverread, itr⟩
  else if itr.idx = 0 then
    PanicOr.ret ⟨some (DemoNode.pstring "u"), some (DemoNode.pstring itr.n.u),
      none, ⟨itr.n, itr.idx + 1⟩⟩
  else if itr.idx = 1 then
    PanicOr.ret ⟨some (DemoNode.pstring "i"), some (DemoNode.pstring itr.n.i),
      none, ⟨itr.n, itr.idx + 1⟩⟩
  else
    PanicOr.panicked "unreachable"

/-- Done on a `_K2_MapIterator`: `itr.idx >= 2`. -/
def K2MapIterator.done (itr : K2MapIterator) : Bool := 2 ≤ itr.idx

/-- Runs `Next` `k` times and returns the result of the `(k+1)`-th call
(the `k`-th yield, counting from 0), propagating panics. -/
def K2MapIterator.nthNext (itr : K2MapIterator) : Nat → PanicOr K2NextResult
  | 0 => itr.next
  | Nat.succ k =>
    match itr.next with
    | PanicOr.panicked m => PanicOr.panicked m
    | PanicOr.ret r => r.itr.nthNext k

/-- State of a `_T2_MapIterator`. -/
structure T2MapIterator where
  n : T2
  idx : Int
deriving DecidableEq, Repr

/-- MapIterator on T2 returns `&_T2_MapIterator{n, 0}`. -/
def T2.mapIterator (n : T2) : T2MapIterator := ⟨n, 0⟩

/-- Result of one `_T2_MapIterator.Next` call. -/
structure T2NextResult where
  k : Option DemoNode
  v : Option DemoNode
  err : Option IpldError
  itr : T2MapIterator
deriving DecidableEq, Repr

/-- Next on a `_T2_MapIterator`: overread guard at `idx >= 4`, then a
switch over `idx` yielding fields `a`, `b`, `c`, `d` in declared order,
then `idx++`; the switch default panics "unreachable". -/
def T2MapIterator.next (itr : T2MapIterator) : PanicOr T2NextResult :=
  if 4 ≤ itr.idx then
    PanicOr.ret ⟨none, none, some IpldError.iteratorOverread, itr⟩
  else if itr.idx = 0 then
    PanicOr.ret ⟨some (DemoNode.pstring "a"), some (DemoNode.pint itr.n.a),
      none, ⟨itr.n, itr.idx + 1⟩⟩
  else if itr.idx = 1 then
    PanicOr.ret ⟨some (DemoNode.pstring "b"), some (DemoNode.pint itr.n.b),
      none, ⟨itr.n, itr.idx + 1⟩⟩
  else if itr.idx = 2 then
    PanicOr.ret ⟨some (DemoNode.pstring "c"), some (DemoNode.pint itr.n.c),
      none, ⟨itr.n, itr.idx + 1⟩⟩
  else if itr.idx = 3 then
    PanicOr.ret ⟨some (DemoNode.pstring "d"), some (DemoNode.pint itr.n.d),
      none, ⟨itr.n, itr.idx + 1⟩⟩
  else
    PanicOr.panicked "unreachable"

/-- Done on a `_T2_MapIterator`: `itr.idx >= 4`. -/
def T2MapIterator.done (itr : T2MapIterator) : Bool := 4 ≤ itr.idx

/-- Runs `Next` `k` times on a T2 iterator and returns the result of the
`(k+1)`-th call, propagating panics. -/
def T2MapIterator.nthNext (itr : T2MapIterator) : Nat → PanicOr T2NextResult
  | 0 => itr.next
  | Nat.succ k =>
    match itr.next with
    | PanicOr.panicked m => PanicOr.panicked m
    | PanicOr.ret r => r.itr.nthNext k

/-- maState is the enum of the map assembler's state machine
(`maState_initial`, `maState_midKey`, `maState_expectValue`,
`maState_midValue`, `maState_finished`). -/
inductive MaState where
  | initial
  | midKey
  | expectValue
  | midValue
  | finished
deriving DecidableEq, Repr

/-- State of a `_K2__Assembler`: the pointer `w` to the node under
construction (nil-able), the state machine position, and the per-field
assignment flags. -/
structure K2Assembler where
  w : Option K2
  state : MaState
  isset_u : Bool
  isset_i : Bool
deriving DecidableEq, Repr

/-- Finish on `_K2__Assembler`: `if ma.state != maState_initial
{ panic("misuse") }; ma.state = maState_finished; return nil`.  The
non-panicking outcome is the `(error, updated assembler)` pair. -/
def K2Assembler.finish (ma : K2Assembler) : PanicOr (Option IpldError × K2Assembler) :=
  if ma.state ≠ MaState.initial then
    PanicOr.panicked "misuse"
  else
    PanicOr.ret (none, { ma with state := MaState.finished })

/-- AssembleKey on `_K2__Assembler`: panics "misuse" unless the state is
initial; in the initial state it sets `maState_midKey` and then hits the
unimplemented `panic("todo")`. -/
def K2Assembler.assembleKey (ma : K2Assembler) : PanicOr K2Assembler :=
  if ma.state ≠ MaState.initial then
    PanicOr.panicked "misuse"
  else
    PanicOr.panicked "todo"

/-- AssembleValue on `_K2__Assembler`: panics "misuse" unless the state is
expectValue; in the expectValue state it sets `maState_midValue` and then
hits the unimplemented `panic("todo")`. -/
def K2Assembler.assembleValue (ma : K2Assembler) : PanicOr K2Assembler :=
  if ma.state ≠ MaState.expectValue then
    PanicOr.panicked "misuse"
  else
    PanicOr.panicked "todo"

/-- AssembleEntry on `_K2__Assembler`: panics "misuse" unless the state is
initial; sets `maState_midValue`; then switches on the key: for "u" it
returns `ErrRepeatedMapKey{plainString("u")}` when `isset_u` is already
true and otherwise hits `panic("todo")`; for "i" it hits `panic("todo")`
with no duplicate check; unknown keys hit `panic("invalid field key")`.
The returned `ipld.NodeAssembler` is nil in every non-panicking branch, so
the embedding returns only the `(error, updated assembler)` pair. -/
def K2Assembler.assembleEntry (ma : K2Assembler) (k : String) :
    PanicOr (Option IpldError × K2Assembler) :=
  if ma.state ≠ MaState.initial then
    PanicOr.panicked "misuse"
  else
    let ma1 := { ma with state := MaState.midValue }
    if k = "u" then
      if ma1.isset_u then
        PanicOr.ret (some (IpldError.repeatedMapKey (DemoNode.pstring "u")), ma1)
      else
        PanicOr.panicked "todo"
    else if k = "i" then
      PanicOr.panicked "todo"
    else
      PanicOr.panicked "invalid field key"

/-- Modelled from the spec: PathSegment is the "tagged union of {string
key, integer index}, interconvertible best-effort (index-as-string,
string-as-index) with explicit failure when the conversion is not
representable" (its source, `path.go`, is not under src/). -/
inductive PathSegment where
  | str (s : String)
  | int (v : Int)
deriving DecidableEq, Repr

/-- GoError is the error universe of the selector package: `fmt.Errorf`
string errors, plus the error outcomes of the generic node accessors
(modelled from the spec: a wrong-kind failure and a missing-field
failure). -/
inductive GoError where
  | errorf (msg : String)
  | wrongKind (methodName : String) (actualKind : ReprKind)
  | noSuchField (key : String)
deriving DecidableEq, Repr

/-- Modelled from the spec: `PathSegment.Index()` returns the integer of
an index segment, and best-effort parses a string segment as an integer,
failing explicitly when it is not representable as one. -/
def PathSegment.index : PathSegment → Except GoError Int
  | PathSegment.int v => Except.ok v
  | PathSegment.str s =>
    match s.toInt? with
    | some v => Except.ok v
    | none => Except.error (GoError.errorf "not an index")

/-- Selector is the capability-set interface {Interests, Explore, Decide};
the embedding carries the one concrete variant under src/
(`ExploreIndex`, with its `next` selector and `interest` segment list) and
an opaque constructor standing for every other selector variant, which the
recursive `ParseSelector` (not under src/) may produce. -/
inductive Selector where
  | exploreIndex (next : Selector) (interest : List PathSegment)
  | other (id : Nat)
deriving DecidableEq, Repr

/-- ExploreIndex is the concrete selector struct
(`type ExploreIndex struct { next Selector; interest []PathSegment }`). -/
structure ExploreIndex where
  next : Selector
  interest : List PathSegment
deriving DecidableEq, Repr

/-- Modelled from the spec: the generic data-model node consumed by the
selector parser — a map with string-keyed fields, a list, or a scalar.
The selector sources use only its `ReprKind`, `TraverseField` and `AsInt`
methods (the generic node implementation itself is not under src/). -/
inductive GNode where
  | gmap (entries : List (String × GNode))
  | glist (elems : List GNode)
  | gint (v : Int)
  | gstring (s : String)
  | gbool (b : Bool)
  | gnull

/-- ReprKind of a generic node. -/
def GNode.reprKind : GNode → ReprKind
  | GNode.gmap _ => ReprKind.map
  | GNode.glist _ => ReprKind.list
  | GNode.gint _ => ReprKind.int
  | GNode.gstring _ => ReprKind.string
  | GNode.gbool _ => ReprKind.bool
  | GNode.gnull => ReprKind.null

/-- Modelled from the spec: `TraverseField` looks a string key up in a map
node, failing with a wrong-kind error on non-map nodes and a
missing-field error when the key is absent. -/
def GNode.traverseField (n : GNode) (key : String) : Except GoError GNode :=
  match n with
  | GNode.gmap entries =>
    match entries.lookup key with
    | some v => Except.ok v
    | none => Except.error (GoError.noSuchField key)
  | _ => Except.error (GoError.wrongKind "TraverseField" n.reprKind)

/-- Modelled from the spec: `AsInt` yields the integer of an int node and
fails with a wrong-kind error on every other kind. -/
def GNode.asInt : GNode → Except GoError Int
  | GNode.gint v => Except.ok v
  | n => Except.error (GoError.wrongKind "AsInt" n.reprKind)

/-- Interests on ExploreIndex returns `s.interest`. -/
def ExploreIndex.interests (s : ExploreIndex) : List PathSegment := s.interest

/-- Explore on ExploreIndex: returns nil unless the node's kind is list;
evaluates `p.Index()` and `s.interest[0].Index()` (the Go index access
panics when `interest` is empty); returns nil when either errs or the
indices differ, and `s.next` otherwise. -/
def ExploreIndex.explore (s : ExploreIndex) (n : GNode) (p : PathSegment) :
    PanicOr (Option Selector) :=
  if n.reprKind ≠ ReprKind.list then
    PanicOr.ret none
  else
    match s.interest with
    | [] => PanicOr.panicked "index out of range"
    | seg0 :: _ =>
      match p.index, seg0.index with
      | Except.ok expectedIndex, Except.ok actualIndex =>
        if expectedIndex ≠ actualIndex then PanicOr.ret none
        else PanicOr.ret (some s.next)
      | _, _ => PanicOr.ret none

/-- Decide on ExploreIndex: `return false`. -/
def ExploreIndex.decide (_ : ExploreIndex) (_ : GNode) : Bool := false

/-- Modelled from the spec: the well-known key naming the target index
field of an ExploreIndex spec (the constant's source is not under src/). -/
def indexKey : String := "index"

/-- Modelled from the spec: the well-known key naming the nested next
selector field of an ExploreIndex spec (not under src/). -/
def nextSelectorKey : String := "next"

/-- ParseExploreIndex assembles an ExploreIndex selector from a spec node.
The recursive `ParseSelector` (not under src/) is an abstract parameter
with the Go contract `(Selector, error)` embedded as `Except`.  The Go
`(Selector, error)` return of ParseExploreIndex itself is embedded as the
pair of a nil-able selector and a nil-able error, so that nil-ness of the
selector on rejection is observable. -/
def ParseExploreIndex (parseSelector : GNode → Except GoError Selector)
    (n : GNode) : Option Selector × Option GoError :=
  if n.reprKind ≠ ReprKind.map then
    (none, some (GoError.errorf "selector spec parse rejected: selector body must be a map"))
  else
    match n.traverseField indexKey with
    | Except.error _ =>
      (none, some (GoError.errorf "selector spec parse rejected: index field must be present in ExploreIndex selector"))
    | Except.ok indexNode =>
      match indexNode.asInt with
      | Except.error _ =>
        (none, some (GoError.errorf "selector spec parse rejected: index field must be a number in ExploreIndex selector"))
      | Except.ok indexValue =>
        match n.traverseField nextSelectorKey with
        | Except.error _ =>
          (none, some (GoError.errorf "selector spec parse rejected: next field must be present in ExploreIndex selector"))
        | Except.ok next =>
          match parseSelector next with
          | Except.error e => (none, some e)
          | Except.ok selector =>
            (some (Selector.exploreIndex selector [PathSegment.int indexValue]), none)

/-- C1: for a K2 node the fresh map iterator's `Next` succeeds exactly 2
times (yielding keys "u" then "i"), after which the iterator is done and
the 3rd `Next` returns the Overread error, while `Length()` returns -1;
for a T2 node `Next` succeeds exactly 4 times (keys "a","b","c","d"), the
5th returns Overread, and `Length()` returns -1. -/
theorem C1_iterator_exhaustion :
    (∀ n : K2,
      n.length = -1 ∧
      K2MapIterator.next (n.mapIterator) =
        PanicOr.ret ⟨some (DemoNode.pstring "u"), some (DemoNode.pstring n.u), none, ⟨n, 1⟩⟩ ∧
      K2MapIterator.next ⟨n, 1⟩ =
        PanicOr.ret ⟨some (DemoNode.pstring "i"), some (DemoNode.pstring n.i), none, ⟨n, 2⟩⟩ ∧
      K2MapIterator.done ⟨n, 2⟩ = true ∧
      K2MapIterator.next ⟨n, 2⟩ =
        PanicOr.ret ⟨none, none, some IpldError.iteratorOverread, ⟨n, 2⟩⟩) ∧
    (∀ n : T2,
      n.length = -1 ∧
      T2MapIterator.next (n.mapIterator) =
        PanicOr.ret ⟨some (DemoNode.pstring "a"), some (DemoNode.pint n.a), none, ⟨n, 1⟩⟩ ∧
      T2MapIterator.next ⟨n, 1⟩ =
        PanicOr.ret ⟨some (DemoNode.pstring "b"), some (DemoNode.pint n.b), none, ⟨n, 2⟩⟩ ∧
      T2MapIterator.next ⟨n, 2⟩ =
        PanicOr.ret ⟨some (DemoNode.pstring "c"), some (DemoNode.pint n.c), none, ⟨n, 3⟩⟩ ∧
      T2MapIterator.next ⟨n, 3⟩ =
        PanicOr.ret ⟨some (DemoNode.pstring "d"), some (DemoNode.pint n.d), none, ⟨n, 4⟩⟩ ∧
      T2MapIterator.done ⟨n, 4⟩ = true ∧
      T2MapIterator.next ⟨n, 4⟩ =
        PanicOr.ret ⟨none, none, some IpldError.iteratorOverread, ⟨n, 4⟩⟩) :=
  ⟨fun _ => ⟨rfl, rfl, rfl, rfl, rfl⟩,
   fun _ => ⟨rfl, rfl, rfl, rfl, rfl, rfl, rfl⟩⟩

/-- C2: the source's `AsInt` on the map-kind nodes K2 and T2 does return a
WrongKind error (and the zero value only alongside that error), but the
error's AppropriateKind field is `ReprKindSet_JustFloat`, not the
`ReprKindSet_JustInt` the claim requires for an `AsInt` call — the
required-kind field is wrong for this accessor. -/
theorem C2_asInt_wrong_required_kind :
    K2.asInt ⟨"", ""⟩ =
      (0, some (IpldError.wrongKind "K2" "AsInt" ReprKindSet_JustFloat ReprKind.map)) ∧
    T2.asInt ⟨0, 0, 0, 0⟩ =
      (0, some (IpldError.wrongKind "T2" "AsInt" ReprKindSet_JustFloat ReprKind.map)) ∧
    ReprKindSet_JustFloat ≠ ReprKindSet_JustInt :=
  ⟨rfl, rfl, by decide⟩

/-- C3 counterexample: `Finish` invoked while a value sub-assembler is
open (state midValue) panics with "misuse" — it terminates rather than
returning a StateMisuse error value to the caller, so the claim as stated
is false at this input. -/
theorem C3_finish_misuse_counterexample :
    K2Assembler.finish ⟨none, MaState.midValue, false, false⟩ =
      PanicOr.panicked "misuse" := rfl

/-- C3 (amended): every assembler operation invoked in a construction
state where it is illegal panics with the "misuse" message instead of
returning a StateMisuse error value; in particular `Finish` called from a
non-initial state panics and therefore never reaches the finished state,
so no usable node is produced. -/
theorem C3_illegal_state_panics :
    (∀ ma : K2Assembler, ma.state ≠ MaState.initial →
      ma.finish = PanicOr.panicked "misuse" ∧
      ma.assembleKey = PanicOr.panicked "misuse" ∧
      ∀ k : String, ma.assembleEntry k = PanicOr.panicked "misuse") ∧
    (∀ ma : K2Assembler, ma.state ≠ MaState.expectValue →
      ma.assembleValue = PanicOr.panicked "misuse") := by
  constructor
  · intro ma h
    refine ⟨?_, ?_, fun k => ?_⟩
    · unfold K2Assembler.finish
      rw [if_pos h]
    · unfold K2Assembler.assembleKey
      rw [if_pos h]
    · unfold K2Assembler.assembleEntry
      rw [if_pos h]
  · intro ma h
    unfold K2Assembler.assembleValue
    rw [if_pos h]

/-- Witness for C3: the amended claim evaluated on concrete assemblers in
the midValue and initial states. -/
theorem C3_illegal_state_panics_witness :
    K2Assembler.finish ⟨some ⟨"", ""⟩, MaState.midValue, false, false⟩ =
      PanicOr.panicked "misuse" ∧
    K2Assembler.assembleValue ⟨none, MaState.initial, false, false⟩ =
      PanicOr.panicked "misuse" :=
  ⟨(C3_illegal_state_panics.1 ⟨some ⟨"", ""⟩, MaState.midValue, false, false⟩
      (by decide)).1,
   C3_illegal_state_panics.2 ⟨none, MaState.initial, false, false⟩ (by decide)⟩

/-- C6: duplicate detection on `_K2__Assembler.AssembleEntry` exists for
key "u" (a second assignment fails with RepeatedMapKey, the node under
construction untouched), but for key "i" the code panics "todo" without
any `isset_i` check, so the claimed per-key duplicate detection over the
closed key set {"u", "i"} does not hold for "i". -/
theorem C6_duplicate_detection_gap :
    K2Assembler.assembleEntry ⟨none, MaState.initial, true, false⟩ "u" =
      PanicOr.ret (some (IpldError.repeatedMapKey (DemoNode.pstring "u")),
        ⟨none, MaState.midValue, true, false⟩) ∧
    K2Assembler.assembleEntry ⟨none, MaState.initial, false, true⟩ "i" =
      PanicOr.panicked "todo" :=
  ⟨rfl, rfl⟩

/-- C7: `ExploreIndex.Decide` returns false for every selector value and
every node. -/
theorem C7_decide_always_false :
    ∀ (s : ExploreIndex) (n : GNode), s.decide n = false :=
  fun _ _ => rfl

/-- C8: the n-th yield of a map iterator is a deterministic function of
the node alone — any two iterators freshly created from the same node
agree on every yield — and the fixed declared order is key "u" then "i"
for K2 and "a", "b", "c", "d" for T2, with the values being the
corresponding fields of the node. -/
theorem C8_iteration_deterministic :
    (∀ (n : K2) (itr1 itr2 : K2MapIterator),
        itr1 = n.mapIterator → itr2 = n.mapIterator →
        ∀ k : Nat, itr1.nthNext k = itr2.nthNext k) ∧
    (∀ n : K2,
        (n.mapIterator).nthNext 0 =
          PanicOr.ret ⟨some (DemoNode.pstring "u"), some (DemoNode.pstring n.u), none, ⟨n, 1⟩⟩ ∧
        (n.mapIterator).nthNext 1 =
          PanicOr.ret ⟨some (DemoNode.pstring "i"), some (DemoNode.pstring n.i), none, ⟨n, 2⟩⟩) ∧
    (∀ (n : T2) (itr1 itr2 : T2MapIterator),
        itr1 = n.mapIterator → itr2 = n.mapIterator →
        ∀ k : Nat, itr1.nthNext k = itr2.nthNext k) ∧
    (∀ n : T2,
        (n.mapIterator).nthNext 0 =
          PanicOr.ret ⟨some (DemoNode.pstring "a"), some (DemoNode.pint n.a), none, ⟨n, 1⟩⟩ ∧
        (n.mapIterator).nthNext 1 =
          PanicOr.ret ⟨some (DemoNode.pstring "b"), some (DemoNode.pint n.b), none, ⟨n, 2⟩⟩ ∧
        (n.mapIterator).nthNext 2 =
          PanicOr.ret ⟨some (DemoNode.pstring "c"), some (DemoNode.pint n.c), none, ⟨n, 3⟩⟩ ∧
        (n.mapIterator).nthNext 3 =
          PanicOr.ret ⟨some (DemoNode.pstring "d"), some (DemoNode.pint n.d), none, ⟨n, 4⟩⟩) :=
  ⟨fun _ _ _ h1 h2 _ => by rw [h1, h2],
   fun _ => ⟨rfl, rfl⟩,
   fun _ _ _ h1 h2 _ => by rw [h1, h2],
   fun _ => ⟨rfl, rfl, rfl, rfl⟩⟩

/-- Witness for C8: two iterators independently created from the same
concrete K2 node agree on their first yield. -/
theorem C8_iteration_deterministic_witness :
    K2MapIterator.nthNext (K2.mapIterator ⟨"x", "y"⟩) 0 =
      K2MapIterator.nthNext (K2.mapIterator ⟨"x", "y"⟩) 0 :=
  C8_iteration_deterministic.1 ⟨"x", "y"⟩ (K2.mapIterator ⟨"x", "y"⟩)
    (K2.mapIterator ⟨"x", "y"⟩) rfl rfl 0

/-- C10: on an exhausted iterator (cursor at or past the entry count),
`Next` returns the Overread error with nil key and nil value and leaves
the cursor unchanged; consequently every subsequent `Next` call returns
the same Overread result and `Done` is (and remains) true. -/
theorem C10_overread_state_preserving :
    (∀ itr : K2MapIterator, 2 ≤ itr.idx →
      itr.next = PanicOr.ret ⟨none, none, some IpldError.iteratorOverread, itr⟩ ∧
      itr.done = true ∧
      ∀ k : Nat, itr.nthNext k =
        PanicOr.ret ⟨none, none, some IpldError.iteratorOverread, itr⟩) ∧
    (∀ itr : T2MapIterator, 4 ≤ itr.idx →
      itr.next = PanicOr.ret ⟨none, none, some IpldError.iteratorOverread, itr⟩ ∧
      itr.done = true ∧
      ∀ k : Nat, itr.nthNext k =
        PanicOr.ret ⟨none, none, some IpldError.iteratorOverread, itr⟩) := by
  constructor
  · intro itr h
    have hnext : itr.next =
        PanicOr.ret ⟨none, none, some IpldError.iteratorOverread, itr⟩ := by
      unfold K2MapIterator.next
      rw [if_pos h]
    refine ⟨hnext, ?_, ?_⟩
    · simp [K2MapIterator.done, h]
    · intro k
      induction k with
      | zero => exact hnext
      | succ k ih =>
        show itr.nthNext (k + 1) = _
        unfold K2MapIterator.nthNext
        rw [hnext]
        exact ih
  · intro itr h
    have hnext : itr.next =
        PanicOr.ret ⟨none, none, some IpldError.iteratorOverread, itr⟩ := by
      unfold T2MapIterator.next
      rw [if_pos h]
    refine ⟨hnext, ?_, ?_⟩
    · simp [T2MapIterator.done, h]
    · intro k
      induction k with
      | zero => exact hnext
      | succ k ih =>
        show itr.nthNext (k + 1) = _
        unfold T2MapIterator.nthNext
        rw [hnext]
        exact ih

/-- Witness for C10: the overread behaviour evaluated on concrete
exhausted K2 and T2 iterators. -/
theorem C10_overread_state_preserving_witness :
    K2MapIterator.next ⟨⟨"x", "y"⟩, 2⟩ =
      PanicOr.ret ⟨none, none, some IpldError.iteratorOverread, ⟨⟨"x", "y"⟩, 2⟩⟩ ∧
    K2MapIterator.done ⟨⟨"x", "y"⟩, 2⟩ = true ∧
    T2MapIterator.next ⟨⟨1, 2, 3, 4⟩, 4⟩ =
      PanicOr.ret ⟨none, none, some IpldError.iteratorOverread, ⟨⟨1, 2, 3, 4⟩, 4⟩⟩ :=
  ⟨(C10_overread_state_preserving.1 ⟨⟨"x", "y"⟩, 2⟩ (by decide)).1,
   (C10_overread_state_preserving.1 ⟨⟨"x", "y"⟩, 2⟩ (by decide)).2.1,
   (C10_overread_state_preserving.2 ⟨⟨1, 2, 3, 4⟩, 4⟩ (by decide)).1⟩

/-- C4: ParseExploreIndex rejects a non-map input, a missing index field,
an index field not coercible to integer, and a missing next field, each
with the corresponding descriptive parse error; a failing recursive parse
of the next field propagates the inner error unchanged; and on every
rejection the returned selector is nil. -/
theorem C4_parse_rejections :
    (∀ (ps : GNode → Except GoError Selector) (n : GNode),
      n.reprKind ≠ ReprKind.map →
      ParseExploreIndex ps n =
        (none, some (GoError.errorf "selector spec parse rejected: selector body must be a map"))) ∧
    (∀ (ps : GNode → Except GoError Selector) (n : GNode) (e : GoError),
      n.reprKind = ReprKind.map →
      n.traverseField indexKey = Except.error e →
      ParseExploreIndex ps n =
        (none, some (GoError.errorf "selector spec parse rejected: index field must be present in ExploreIndex selector"))) ∧
    (∀ (ps : GNode → Except GoError Selector) (n nodeI : GNode) (e : GoError),
      n.reprKind = ReprKind.map →
      n.traverseField indexKey = Except.ok nodeI →
      nodeI.asInt = Except.error e →
      ParseExploreIndex ps n =
        (none, some (GoError.errorf "selector spec parse rejected: index field must be a number in ExploreIndex selector"))) ∧
    (∀ (ps : GNode → Except GoError Selector) (n nodeI : GNode) (v : Int) (e : GoError),
      n.reprKind = ReprKind.map →
      n.traverseField indexKey = Except.ok nodeI →
      nodeI.asInt = Except.ok v →
      n.traverseField nextSelectorKey = Except.error e →
      ParseExploreIndex ps n =
        (none, some (GoError.errorf "selector spec parse rejected: next field must be present in ExploreIndex selector"))) ∧
    (∀ (ps : GNode → Except GoError Selector) (n nodeI nextN : GNode) (v : Int) (e : GoError),
      n.reprKind = ReprKind.map →
      n.traverseField indexKey = Except.ok nodeI →
      nodeI.asInt = Except.ok v →
      n.traverseField nextSelectorKey = Except.ok nextN →
      ps nextN = Except.error e →
      ParseExploreIndex ps n = (none, some e)) ∧
    (∀ (ps : GNode → Except GoError Selector) (n : GNode) (e : GoError),
      (ParseExploreIndex ps n).2 = some e → (ParseExploreIndex ps n).1 = none) := by
  refine ⟨?_, ?_, ?_, ?_, ?_, ?_⟩
  · intro ps n h
    unfold ParseExploreIndex
    rw [if_pos h]
  · intro ps n e hk hf
    unfold ParseExploreIndex
    rw [if_neg (by simp [hk])]
    simp only [hf]
  · intro ps n nodeI e hk hf ha
    unfold ParseExploreIndex
    rw [if_neg (by simp [hk])]
    simp only [hf, ha]
  · intro ps n nodeI v e hk hf ha hg
    unfold ParseExploreIndex
    rw [if_neg (by simp [hk])]
    simp only [hf, ha, hg]
  · intro ps n nodeI nextN v e hk hf ha hg hp
    unfold ParseExploreIndex
    rw [if_neg (by simp [hk])]
    simp only [hf, ha, hg, hp]
  · intro ps n e h
    have hor : (ParseExploreIndex ps n).1 = none ∨
        (ParseExploreIndex ps n).2 = none := by
      unfold ParseExploreIndex
      split
      · exact Or.inl rfl
      · split
        · exact Or.inl rfl
        · split
          · exact Or.inl rfl
          · split
            · exact Or.inl rfl
            · split
              · exact Or.inl rfl
              · exact Or.inr rfl
    cases hor with
    | inl h1 => exact h1
    | inr h2 => rw [h2] at h; exact Option.noConfusion h

/-- Witness for C4: a non-map spec node is rejected with the wrong-kind
parse error, and an inner parse failure on the next field is returned
unchanged, both evaluated on concrete inputs. -/
theorem C4_parse_rejections_witness :
    ParseExploreIndex (fun _ => Except.error (GoError.errorf "inner")) (GNode.gint 0) =
      (none, some (GoError.errorf "selector spec parse rejected: selector body must be a map")) ∧
    ParseExploreIndex (fun _ => Except.error (GoError.errorf "inner"))
        (GNode.gmap [(indexKey, GNode.gint 2), (nextSelectorKey, GNode.gnull)]) =
      (none, some (GoError.errorf "inner")) :=
  ⟨C4_parse_rejections.1 (fun _ => Except.error (GoError.errorf "inner"))
      (GNode.gint 0) (by decide),
   C4_parse_rejections.2.2.2.2.1 (fun _ => Except.error (GoError.errorf "inner"))
      (GNode.gmap [(indexKey, GNode.gint 2), (nextSelectorKey, GNode.gnull)])
      (GNode.gint 2) GNode.gnull 2 (GoError.errorf "inner") rfl rfl rfl rfl rfl⟩

/-- C5: for an ExploreIndex selector with a non-empty interest list,
`Explore(n, p)` returns the held next-step selector exactly when the
node's kind is list and both the segment's index and the selector's
target index parse to the same integer; in every other case — including
an index-parse failure on either side — it returns nil, never an error. -/
theorem C5_explore_characterization :
    ∀ (nx : Selector) (seg0 : PathSegment) (rest : List PathSegment)
      (n : GNode) (p : PathSegment),
      (ExploreIndex.explore ⟨nx, seg0 :: rest⟩ n p = PanicOr.ret (some nx) ↔
        n.reprKind = ReprKind.list ∧
          ∃ i : Int, p.index = Except.ok i ∧ seg0.index = Except.ok i) ∧
      (¬(n.reprKind = ReprKind.list ∧
          ∃ i : Int, p.index = Except.ok i ∧ seg0.index = Except.ok i) →
        ExploreIndex.explore ⟨nx, seg0 :: rest⟩ n p = PanicOr.ret none) := by
  intro nx seg0 rest n p
  by_cases hk : n.reprKind = ReprKind.list
  · rcases hp : p.index with e | a
    · constructor
      · simp [ExploreIndex.explore, hk, hp]
      · intro _
        simp [ExploreIndex.explore, hk, hp]
    · rcases hq : seg0.index with e2 | b
      · constructor
        · simp [ExploreIndex.explore, hk, hp, hq]
        · intro _
          simp [ExploreIndex.explore, hk, hp, hq]
      · by_cases hab : a = b
        · subst hab
          constructor
          · simp [ExploreIndex.explore, hk, hp, hq]
          · intro hcon
            exact absurd ⟨hk, a, rfl, rfl⟩ hcon
        · constructor
          · constructor
            · intro hex
              exfalso
              have : ExploreIndex.explore ⟨nx, seg0 :: rest⟩ n p =
                  PanicOr.ret none := by
                simp [ExploreIndex.explore, hk, hp, hq, hab]
              rw [this] at hex
              simp at hex
            · rintro ⟨-, i, hpi, hqi⟩
              injection hpi with h1
              injection hqi with h2
              exact absurd (h1.trans h2.symm) hab
          · intro _
            simp [ExploreIndex.explore, hk, hp, hq, hab]
  · constructor
    · simp [ExploreIndex.explore, hk]
    · intro _
      simp [ExploreIndex.explore, hk]

/-- Witness for C5: on a concrete list node with matching index 2 the
held next selector is returned; on a concrete non-list node nil is
returned. -/
theorem C5_explore_characterization_witness :
    ExploreIndex.explore ⟨Selector.other 0, [PathSegment.int 2]⟩
        (GNode.glist []) (PathSegment.int 2) =
      PanicOr.ret (some (Selector.other 0)) ∧
    ExploreIndex.explore ⟨Selector.other 0, [PathSegment.int 2]⟩
        (GNode.gint 5) (PathSegment.int 2) =
      PanicOr.ret none :=
  ⟨(C5_explore_characterization (Selector.other 0) (PathSegment.int 2) []
      (GNode.glist []) (PathSegment.int 2)).1.mpr ⟨rfl, 2, rfl, rfl⟩,
   (C5_explore_characterization (Selector.other 0) (PathSegment.int 2) []
      (GNode.gint 5) (PathSegment.int 2)).2
      (fun hcon => absurd hcon.1 (by decide))⟩

/-- A selector whose interest list is the singleton integer segment never
reaches the panicking index access inside Explore: on every node and
segment, Explore returns a value. -/
theorem explore_singletonInterest_total (nx : Selector) (iv : Int)
    (m : GNode) (p : PathSegment) :
    ∃ r : Option Selector,
      ExploreIndex.explore ⟨nx, [PathSegment.int iv]⟩ m p = PanicOr.ret r := by
  by_cases hk : m.reprKind = ReprKind.list
  · rcases hp : p.index with e | a
    · exact ⟨none, by simp [ExploreIndex.explore, hk, hp]⟩
    · by_cases hab : a = iv
      · exact ⟨some nx, by
          have hq : (PathSegment.int iv).index = Except.ok iv := rfl
          simp [ExploreIndex.explore, hk, hp, hq, hab]⟩
      · exact ⟨none, by
          have hq : (PathSegment.int iv).index = Except.ok iv := rfl
          simp [ExploreIndex.explore, hk, hp, hq, hab]⟩
  · exact ⟨none, by simp [ExploreIndex.explore, hk]⟩

/-- C9: every selector a successful ParseExploreIndex call returns is an
ExploreIndex whose interest list is exactly the singleton integer segment
holding the value parsed from the spec node's index field (the field is
present and its AsInt yields exactly that integer), and on such a
selector Explore is total (the interest[0] access cannot fail); an
ExploreIndex built with an empty interest list, by contrast, panics
inside Explore on a list node. -/
theorem C9_parse_invariant_explore_total :
    (∀ (ps : GNode → Except GoError Selector) (n : GNode) (sel : Selector),
      (ParseExploreIndex ps n).1 = some sel →
      ∃ (nx : Selector) (iv : Int),
        sel = Selector.exploreIndex nx [PathSegment.int iv] ∧
        (∃ nodeI : GNode,
          n.traverseField indexKey = Except.ok nodeI ∧
          nodeI.asInt = Except.ok iv) ∧
        ∀ (m : GNode) (p : PathSegment),
          ∃ r : Option Selector,
            ExploreIndex.explore ⟨nx, [PathSegment.int iv]⟩ m p =
              PanicOr.ret r) ∧
    ExploreIndex.explore ⟨Selector.other 0, []⟩ (GNode.glist [])
        (PathSegment.int 0) =
      PanicOr.panicked "index out of range" := by
  constructor
  · intro ps n sel h
    unfold ParseExploreIndex at h
    split at h
    · exact Option.noConfusion h
    · split at h
      · exact Option.noConfusion h
      · rename_i indexNode hfield
        split at h
        · exact Option.noConfusion h
        · rename_i indexValue hasint
          split at h
          · exact Option.noConfusion h
          · split at h
            · exact Option.noConfusion h
            · injection h with h1
              exact ⟨_, indexValue, h1.symm, ⟨indexNode, hfield, hasint⟩,
                fun m p => explore_singletonInterest_total _ _ m p⟩
  · rfl

/-- Witness for C9: the invariant instantiated on a concrete spec node
whose index field parses to 2. -/
theorem C9_parse_invariant_witness :
    ∃ (nx : Selector) (iv : Int),
      Selector.exploreIndex (Selector.other 7) [PathSegment.int 2] =
        Selector.exploreIndex nx [PathSegment.int iv] ∧
      (∃ nodeI : GNode,
        GNode.traverseField
            (GNode.gmap [(indexKey, GNode.gint 2), (nextSelectorKey, GNode.gnull)])
            indexKey = Except.ok nodeI ∧
        nodeI.asInt = Except.ok iv) ∧
      ∀ (m : GNode) (p : PathSegment),
        ∃ r : Option Selector,
          ExploreIndex.explore ⟨nx, [PathSegment.int iv]⟩ m p = PanicOr.ret r :=
  C9_parse_invariant_explore_total.1 (fun _ => Except.ok (Selector.other 7))
    (GNode.gmap [(indexKey, GNode.gint 2), (nextSelectorKey, GNode.gnull)])
    (Selector.exploreIndex (Selector.other 7) [PathSegment.int 2]) rfl
